import Mathlib

/-!
Verification of the file-backed persistent storage service of bplib
(`src/store/file.c`).

The store keeps a table of handles; each handle owns a write cursor
(`write_data_id`), a read cursor (`read_data_id`), a random-access retrieve
cursor, a relinquish table, and a direct-mapped data cache with locked cells.
Records are appended to bucketed `.dat` files of 256 records each; a
companion `.tbl` file stores the per-bucket freed map.

This development shallowly embeds the per-handle state (`file_store_t`) and
the exported operations (`bplib_store_file_create` field initialisation,
`bplib_store_file_enqueue`, `bplib_store_file_dequeue`,
`bplib_store_file_retrieve`, `bplib_store_file_release`,
`bplib_store_file_relinquish`, `bplib_store_file_getcount`).  Files are
modelled at record granularity: every complete write of
`size-word | object header | payload` appends one `FileChunk.record`; a short
write appends `FileChunk.torn`.  File descriptors carry the bucket they are
open on and a record-granular position, matching the byte position of the C
stream at record boundaries.  Fallible platform calls (`fopen`, `fwrite`,
`fflush`, `bplib_os_waiton`) are driven by explicit environment parameters;
`remove` and `fread` outcomes are determined by the modelled file system.
Lock usage is recorded as an event trace.
-/

namespace BPStore

/-- Error/status codes returned by the store operations (`bplib.h` codes
`BP_SUCCESS`, `BP_TIMEOUT`, `BP_FAILEDSTORE`, ...). -/
inductive Status where
  | success
  | timeout
  | failedStore
  | failedOS
  | invalidHandle
deriving DecidableEq, Repr

/-- Outcomes of `bplib_os_waiton(lock, timeout)`: success, `BP_TIMEOUT`, or
`BP_ERROR`. -/
inductive WaitRes where
  | ok
  | timedOut
  | err
deriving DecidableEq, Repr

/-- Events on the per-handle OS lock, used to trace which operations hold the
mutex (`bplib_os_lock` / `bplib_os_unlock` / `bplib_os_signal` /
`bplib_os_waiton`). -/
inductive LockEvent where
  | lock
  | unlock
  | signal
  | waiton
deriving DecidableEq, Repr

/-- `FILE_DATA_COUNT`: records per bucket file. -/
def FILE_DATA_COUNT : Nat := 256

/-- `BP_SID_VACANT`: the reserved vacant storage id. -/
def BP_SID_VACANT : Nat := 0

/-- Modelled from the spec: `sizeof(bp_object_hdr_t)` where
`bp_object_hdr_t = { handle:i32, sid:u64, size:u32 }` is declared in
`bplib.h`, which is not part of the excerpt; the spec gives the on-disk
format as little-endian with no padding, hence 16 bytes. -/
def BP_OBJECT_HDR_SIZE : Nat := 16

/-- The `file_flush` module global (`FILE_FLUSH_DEFAULT = true`). -/
def file_flush : Bool := true

/-- `GET_DATAID(sid)`: `(uint32_t)((unsigned long)sid - 1)`, i.e. truncation
of `sid - 1` to 32 bits. -/
def GET_DATAID (sid : Nat) : Nat := (sid + (2 ^ 32 - 1)) % 2 ^ 32

/-- `GET_FILEID(did)`: `did >> 8` on a 32-bit data id. -/
def GET_FILEID (did : Nat) : Nat := did / 256

/-- `GET_DATAOFFSET(did)`: `did & 0xFF`. -/
def GET_DATAOFFSET (did : Nat) : Nat := did % 256

/-- The object header `bp_object_hdr_t` written in front of every stored
record and stamped with the sid on dequeue/retrieve. -/
structure ObjectHdr where
  handle : Int
  sid : Nat
  size : Nat
deriving DecidableEq, Repr

/-- One slice of a `.dat` bucket file, at record granularity: a complete
record (`size-word | header | payload`), or the trailing bytes left by a
short write. -/
inductive FileChunk where
  | record (hdr : ObjectHdr) (payload : List Nat)
  | torn (bytes : Nat)
deriving DecidableEq, Repr

/-- The heap object handed back by dequeue/retrieve (`bp_object_t`): the
header (with the sid stamped in) followed by the payload bytes. -/
structure BpObject where
  hdr : ObjectHdr
  payload : List Nat
deriving DecidableEq, Repr

/-- One slot of the data cache (`data_cache_t`). -/
structure DataCacheEntry where
  mem_ptr : Option BpObject
  mem_locked : Bool
  mem_data_id : Nat
deriving DecidableEq, Repr

/-- The all-zero cache slot produced by `memset` in create. -/
def emptyCacheEntry : DataCacheEntry := ⟨none, false, 0⟩

/-- The per-bucket relinquish table (`free_table_t`): a 256-entry freed map
and a freed count. -/
structure FreeTable where
  freed : List Bool
  free_cnt : Int
deriving DecidableEq, Repr

/-- The zero-initialised relinquish table. -/
def zeroFreeTable : FreeTable := ⟨List.replicate FILE_DATA_COUNT false, 0⟩

/-- Content of a `.tbl` file: a whole table, or the bytes of a short write. -/
inductive TblFile where
  | whole (t : FreeTable)
  | torn
deriving DecidableEq, Repr

/-- An open `FILE*`: the bucket it is open on and the current read position,
counted in complete records (the C stream position at a record boundary). -/
structure FdState where
  file_id : Nat
  pos : Nat
deriving DecidableEq, Repr

/-- The per-handle store state (`file_store_t`), minus the raw lock handle
and `in_use` flag. -/
structure FileStore where
  service_id : Nat
  data_count : Int
  write_fd : Option FdState
  write_data_id : Nat
  write_error : Bool
  read_fd : Option FdState
  read_data_id : Nat
  read_error : Bool
  retrieve_fd : Option FdState
  retrieve_data_id : Nat
  relinquish_fd : Bool
  relinquish_data_id : Nat
  relinquish_table : FreeTable
  cache_size : Nat
  data_cache : List DataCacheEntry
deriving DecidableEq, Repr

/-- The file system seen by one store handle: its `.dat` and `.tbl` files,
keyed by bucket id (`none` = the file does not exist). -/
structure FileSys where
  dat : Nat → Option (List FileChunk)
  tbl : Nat → Option TblFile

/-- The empty file system. -/
def emptyFileSys : FileSys := ⟨fun _ => none, fun _ => none⟩

/-- `fopen(..., "ab")` on a `.dat` file: creates the file when missing. -/
def FileSys.createDat (sys : FileSys) (fid : Nat) : FileSys :=
  match sys.dat fid with
  | some _ => sys
  | none => { sys with dat := fun f => if f = fid then some [] else sys.dat f }

/-- Append one chunk to a `.dat` file (the fd is in append mode, so every
write lands at the end of the file). -/
def FileSys.appendChunk (sys : FileSys) (fid : Nat) (c : FileChunk) : FileSys :=
  { sys with dat := fun f => if f = fid then some ((sys.dat fid).getD [] ++ [c]) else sys.dat f }

/-- The result of one store operation: returned status, the post-state of the
handle and file system, the trace of lock events, and the object handed back
through the out-parameter, when any. -/
structure OpResult where
  status : Status
  fs : FileStore
  sys : FileSys
  events : List LockEvent
  obj : Option BpObject

/-- The field initialisation performed by `bplib_store_file_create` on the
fresh table slot: `memset` to zero, the four ids set to 1, and a zeroed cache
of `cache_size` slots. -/
def bplib_store_file_create_state (svc : Nat) (cache_size : Nat) : FileStore :=
  { service_id := svc
    data_count := 0
    write_fd := none
    write_data_id := 1
    write_error := false
    read_fd := none
    read_data_id := 1
    read_error := false
    retrieve_fd := none
    retrieve_data_id := 1
    relinquish_fd := false
    relinquish_data_id := 1
    relinquish_table := zeroFreeTable
    cache_size := cache_size
    data_cache := List.replicate cache_size emptyCacheEntry }

/-- Skip `n` records forward from position `pos` by reading each record's
size word and seeking past its payload.  Returns whether every size word was
readable and the final position. -/
def skipRecords (chunks : List FileChunk) : Nat → Nat → Bool × Nat
  | pos, 0 => (true, pos)
  | pos, Nat.succ n =>
    match chunks.get? pos with
    | some (FileChunk.record _ _) => skipRecords chunks (pos + 1) n
    | _ => (false, pos)

/-- Platform outcomes driving one call of `bplib_store_file_enqueue`:
whether `fopen` succeeds, the byte counts returned by the four `fwrite`
calls, and whether `fflush` succeeds. -/
structure EnqueueEnv where
  open_ok : Bool
  size_w : Nat
  hdr_w : Nat
  d1_w : Nat
  d2_w : Nat
  flush_ok : Bool
deriving DecidableEq, Repr

/-- The total byte count accumulated into `bytes_written` by the four
`fwrite` calls of enqueue (each call returns at most its request). -/
def enqueue_bytes_written (env : EnqueueEnv) (d1 d2 : List Nat) : Nat :=
  min env.size_w 4 + min env.hdr_w BP_OBJECT_HDR_SIZE
    + min env.d1_w d1.length + min env.d2_w d2.length

/-- `object_size = sizeof(bp_object_hdr_t) + data1_size + data2_size`. -/
def enqueue_object_size (d1 d2 : List Nat) : Nat :=
  BP_OBJECT_HDR_SIZE + (d1.length + d2.length)

/-- The open-and-replay prologue of enqueue (`file.c` lines 381-410): open
the write file if closed and, if the previous write errored, seek to the
start of the bucket and skip `data_offset` records. -/
def enqueue_open (env : EnqueueEnv) (fs : FileStore) (sys : FileSys)
    (file_id data_offset : Nat) : Except OpResult (FileStore × FileSys) :=
  match fs.write_fd with
  | some _ => Except.ok (fs, sys)
  | none =>
    if env.open_ok = false then
      Except.error ⟨Status.failedStore, fs, sys, [], none⟩
    else
      let sys1 := FileSys.createDat sys file_id
      let fs1 := { fs with write_fd := some ⟨file_id, 0⟩ }
      if fs1.write_error then
        let s := skipRecords ((sys1.dat file_id).getD []) 0 data_offset
        if s.1 = false then
          Except.error ⟨Status.failedStore, { fs1 with write_fd := some ⟨file_id, s.2⟩ }, sys1, [], none⟩
        else
          Except.ok ({ fs1 with write_fd := some ⟨file_id, s.2⟩ }, sys1)
      else
        Except.ok (fs1, sys1)

/-- The write-and-commit epilogue of enqueue (`file.c` lines 412-475): write
size word, header and the two buffers, flush, and either fail (set
`write_error`, close the fd) or commit (close the fd on a full bucket,
advance `write_data_id`, bump `data_count`, signal the lock). -/
def enqueue_write (handle : Int) (d1 d2 : List Nat) (env : EnqueueEnv)
    (fs : FileStore) (sys : FileSys) : OpResult :=
  match fs.write_fd with
  | none => ⟨Status.failedStore, fs, sys, [], none⟩
  | some fd =>
    let data_size := d1.length + d2.length
    let object_size := enqueue_object_size d1 d2
    let bytes_written := enqueue_bytes_written env d1 d2
    let flush_error := file_flush = true ∧ env.flush_ok = false
    let chunk := if bytes_written = object_size + 4 then
        FileChunk.record ⟨handle, BP_SID_VACANT, data_size⟩ (d1 ++ d2)
      else
        FileChunk.torn bytes_written
    let sys1 := FileSys.appendChunk sys fd.file_id chunk
    if bytes_written ≠ object_size + 4 ∨ flush_error then
      ⟨Status.failedStore, { fs with write_error := true, write_fd := none }, sys1, [], none⟩
    else
      let fs1 := if fs.write_data_id % FILE_DATA_COUNT = 0 then { fs with write_fd := none } else fs
      ⟨Status.success,
        { fs1 with write_error := false
                   write_data_id := fs1.write_data_id + 1
                   data_count := fs1.data_count + 1 },
        sys1, [LockEvent.signal], none⟩

/-- `bplib_store_file_enqueue` (`file.c` lines 362-476).  Note the C function
never takes the per-handle lock; it only signals it on success. -/
def bplib_store_file_enqueue (handle : Int) (d1 d2 : List Nat) (env : EnqueueEnv)
    (fs : FileStore) (sys : FileSys) : OpResult :=
  let data_id := GET_DATAID fs.write_data_id
  let file_id := GET_FILEID data_id
  let data_offset := GET_DATAOFFSET data_id
  match enqueue_open env fs sys file_id data_offset with
  | Except.error r => r
  | Except.ok (fs1, sys1) => enqueue_write handle d1 d2 env fs1 sys1

/-- `bplib_store_file_getcount` (`file.c` lines 997-1005): returns
`data_count` without taking the lock. -/
def bplib_store_file_getcount (fs : FileStore) : Int × List LockEvent :=
  (fs.data_count, [])

/-- Platform outcomes driving one call of `bplib_store_file_dequeue`: the
result of `bplib_os_waiton` on the empty-queue wait and on the
locked-cache-slot wait. -/
structure DequeueEnv where
  wait_empty : WaitRes
  wait_cache : WaitRes
deriving DecidableEq, Repr

/-- Final stage of dequeue (`file.c` lines 623-649): install the object into
its cache slot (locked), close the read fd on a full bucket, clear
`read_error` and advance `read_data_id`. -/
def dequeue_install (pre : List LockEvent) (fs : FileStore) (sys : FileSys)
    (data_id : Nat) (obj : BpObject) (cache_index : Nat) : OpResult :=
  let fs1 := { fs with data_cache := fs.data_cache.set cache_index ⟨some obj, true, data_id⟩ }
  let fs2 := if fs1.read_data_id % FILE_DATA_COUNT = 0 then { fs1 with read_fd := none } else fs1
  ⟨Status.success,
    { fs2 with read_error := false, read_data_id := fs2.read_data_id + 1 },
    sys, pre, some obj⟩

/-- Cache stage of dequeue (`file.c` lines 603-621): if the slot is locked,
wait on the handle lock; on error or timeout free the just-read object and
bail out, leaving the advanced read fd as it is. -/
def dequeue_cache (pre : List LockEvent) (env : DequeueEnv) (fs : FileStore) (sys : FileSys)
    (data_id : Nat) (obj : BpObject) : OpResult :=
  let cache_index := data_id % fs.cache_size
  let slot := fs.data_cache.getD cache_index emptyCacheEntry
  if slot.mem_locked = true then
    match env.wait_cache with
    | WaitRes.err => ⟨Status.failedStore, fs, sys, pre ++ [LockEvent.waiton], none⟩
    | WaitRes.timedOut => ⟨Status.timeout, fs, sys, pre ++ [LockEvent.waiton], none⟩
    | WaitRes.ok =>
      if slot.mem_locked = true then
        ⟨Status.timeout, fs, sys, pre ++ [LockEvent.waiton], none⟩
      else
        dequeue_install (pre ++ [LockEvent.waiton]) fs sys data_id obj cache_index
  else
    dequeue_install pre fs sys data_id obj cache_index

/-- Record-read step of dequeue (`file.c` lines 567-601): read the size word
and the object at the fd's position `fd`, stamp the sid; on failure set
`read_error`, close the fd and free the object. -/
def dequeue_read3 (pre : List LockEvent) (env : DequeueEnv) (fs : FileStore) (sys : FileSys)
    (data_id : Nat) (fd : FdState) : OpResult :=
  match ((sys.dat fd.file_id).getD []).get? fd.pos with
  | some (FileChunk.record hdr payload) =>
    dequeue_cache pre env { fs with read_fd := some ⟨fd.file_id, fd.pos + 1⟩ } sys data_id
      ⟨{ hdr with sid := fs.read_data_id }, payload⟩
  | _ =>
    ⟨Status.failedStore, { fs with read_error := true, read_fd := none }, sys, pre, none⟩

/-- Read stage of dequeue (`file.c` lines 531-601): replay from the start of
the bucket after a previous read error, then read the record there. -/
def dequeue_read2 (pre : List LockEvent) (env : DequeueEnv) (fs : FileStore) (sys : FileSys)
    (data_id data_offset : Nat) : OpResult :=
  match fs.read_fd with
  | none => ⟨Status.failedStore, fs, sys, pre, none⟩
  | some fd =>
    if fs.read_error = true then
      let s := skipRecords ((sys.dat fd.file_id).getD []) 0 data_offset
      if s.1 = false then
        ⟨Status.failedStore, { fs with read_fd := some ⟨fd.file_id, s.2⟩ }, sys, pre, none⟩
      else
        dequeue_read3 pre env fs sys data_id ⟨fd.file_id, s.2⟩
    else
      dequeue_read3 pre env fs sys data_id fd

/-- Open stage of dequeue (`file.c` lines 519-529): open the bucket read-only
when the read fd is closed; fail if the file does not exist. -/
def dequeue_read (pre : List LockEvent) (env : DequeueEnv) (fs : FileStore) (sys : FileSys)
    (data_id file_id data_offset : Nat) : OpResult :=
  match fs.read_fd with
  | none =>
    match sys.dat file_id with
    | none => ⟨Status.failedStore, fs, sys, pre, none⟩
    | some _ =>
      dequeue_read2 pre env { fs with read_fd := some ⟨file_id, 0⟩ } sys data_id data_offset
  | some _ => dequeue_read2 pre env fs sys data_id data_offset

/-- Body of dequeue under the handle lock (`file.c` lines 489-650),
beginning with the empty-queue check and wait. -/
def dequeue_locked (env : DequeueEnv) (fs : FileStore) (sys : FileSys) : OpResult :=
  let data_id := GET_DATAID fs.read_data_id
  let file_id := GET_FILEID data_id
  let data_offset := GET_DATAOFFSET data_id
  if fs.read_data_id = fs.write_data_id then
    match env.wait_empty with
    | WaitRes.err => ⟨Status.failedStore, fs, sys, [LockEvent.waiton], none⟩
    | WaitRes.timedOut => ⟨Status.timeout, fs, sys, [LockEvent.waiton], none⟩
    | WaitRes.ok =>
      if fs.read_data_id = fs.write_data_id then
        ⟨Status.timeout, fs, sys, [LockEvent.waiton], none⟩
      else
        dequeue_read [LockEvent.waiton] env fs sys data_id file_id data_offset
  else
    dequeue_read [] env fs sys data_id file_id data_offset

/-- Wrap the body of a store operation in `bplib_os_lock` /
`bplib_os_unlock`: every exit path unlocks, so the trace is bracketed. -/
def withLock (r : OpResult) : OpResult :=
  ⟨r.status, r.fs, r.sys, LockEvent.lock :: r.events ++ [LockEvent.unlock], r.obj⟩

/-- `bplib_store_file_dequeue` (`file.c` lines 481-655): the whole body runs
between `bplib_os_lock` and `bplib_os_unlock`. -/
def bplib_store_file_dequeue (env : DequeueEnv) (fs : FileStore) (sys : FileSys) : OpResult :=
  withLock (dequeue_locked env fs sys)

/-- Platform outcomes driving one call of `bplib_store_file_retrieve`: the
result of `bplib_os_waiton` on the locked-cache-slot wait. -/
structure RetrieveEnv where
  wait_cache : WaitRes
deriving DecidableEq, Repr

/-- Cache-install stage of retrieve (`file.c` lines 796-828): wait while the
slot is locked (freeing the object on error/timeout), then install the
object locked and return it. -/
def retrieve_cache (env : RetrieveEnv) (fs : FileStore) (sys : FileSys)
    (data_id : Nat) (obj : BpObject) : OpResult :=
  let cache_index := data_id % fs.cache_size
  let slot := fs.data_cache.getD cache_index emptyCacheEntry
  if slot.mem_locked = true then
    match env.wait_cache with
    | WaitRes.err => ⟨Status.failedStore, fs, sys, [LockEvent.waiton], none⟩
    | WaitRes.timedOut => ⟨Status.timeout, fs, sys, [LockEvent.waiton], none⟩
    | WaitRes.ok =>
      if slot.mem_locked = true then
        ⟨Status.timeout, fs, sys, [LockEvent.waiton], none⟩
      else
        ⟨Status.success,
          { fs with data_cache := fs.data_cache.set cache_index ⟨some obj, true, data_id⟩ },
          sys, [LockEvent.waiton], some obj⟩
  else
    ⟨Status.success,
      { fs with data_cache := fs.data_cache.set cache_index ⟨some obj, true, data_id⟩ },
      sys, [], some obj⟩

/-- Seek-and-read stage of retrieve (`file.c` lines 738-794): skip
`offset_delta` records forward from the fd's current position, read the
record there, stamp the sid and remember it in `retrieve_data_id`; on
failure close the retrieve fd. -/
def retrieve_read (sid : Nat) (env : RetrieveEnv) (fs : FileStore) (sys : FileSys)
    (data_id : Nat) (offset_delta : Int) : OpResult :=
  match fs.retrieve_fd with
  | none => ⟨Status.failedStore, fs, sys, [], none⟩
  | some fd =>
    let chunks := (sys.dat fd.file_id).getD []
    let s := skipRecords chunks fd.pos offset_delta.toNat
    if s.1 = false then
      ⟨Status.failedStore, { fs with retrieve_fd := some ⟨fd.file_id, s.2⟩ }, sys, [], none⟩
    else
      match chunks.get? s.2 with
      | some (FileChunk.record hdr payload) =>
        retrieve_cache env
          { fs with retrieve_fd := some ⟨fd.file_id, s.2 + 1⟩, retrieve_data_id := sid }
          sys data_id ⟨{ hdr with sid := sid }, payload⟩
      | _ =>
        ⟨Status.failedStore, { fs with retrieve_fd := none }, sys, [], none⟩

/-- File stage of retrieve (`file.c` lines 700-736): close the fd when the
bucket changed, open it when closed (reading then starts at position 0 with
`offset_delta = 0`), otherwise compute `offset_delta` from the previous
offset, restarting from the file start when it is negative. -/
def retrieve_file (sid : Nat) (env : RetrieveEnv) (fs : FileStore) (sys : FileSys)
    (data_id file_id data_offset prev_file_id prev_data_offset : Nat) : OpResult :=
  let fs1 := if file_id ≠ prev_file_id then { fs with retrieve_fd := none } else fs
  match fs1.retrieve_fd with
  | none =>
    match sys.dat file_id with
    | none => ⟨Status.failedStore, fs1, sys, [], none⟩
    | some _ =>
      retrieve_read sid env { fs1 with retrieve_fd := some ⟨file_id, 0⟩ } sys data_id 0
  | some fd =>
    let offset_delta : Int := (data_offset : Int) - (prev_data_offset : Int)
    if offset_delta < 0 then
      retrieve_read sid env { fs1 with retrieve_fd := some ⟨fd.file_id, 0⟩ } sys data_id (data_offset : Int)
    else
      retrieve_read sid env fs1 sys data_id offset_delta

/-- Body of retrieve under the handle lock (`file.c` lines 669-829): the
cache is consulted first and a hit returns the slot's object directly. -/
def retrieve_locked (sid : Nat) (env : RetrieveEnv) (fs : FileStore) (sys : FileSys) : OpResult :=
  let data_id := GET_DATAID sid
  let file_id := GET_FILEID data_id
  let data_offset := GET_DATAOFFSET data_id
  let prev_data_id := GET_DATAID fs.retrieve_data_id
  let prev_file_id := GET_FILEID prev_data_id
  let prev_data_offset := GET_DATAOFFSET prev_data_id
  let cache_index := data_id % fs.cache_size
  let slot := fs.data_cache.getD cache_index emptyCacheEntry
  match slot.mem_ptr with
  | some o =>
    if slot.mem_data_id = data_id then
      ⟨Status.success, fs, sys, [], some o⟩
    else
      retrieve_file sid env fs sys data_id file_id data_offset prev_file_id prev_data_offset
  | none =>
    retrieve_file sid env fs sys data_id file_id data_offset prev_file_id prev_data_offset

/-- `bplib_store_file_retrieve` (`file.c` lines 660-834): the whole body runs
between `bplib_os_lock` and `bplib_os_unlock`. -/
def bplib_store_file_retrieve (sid : Nat) (env : RetrieveEnv) (fs : FileStore) (sys : FileSys) :
    OpResult :=
  withLock (retrieve_locked sid env fs sys)

/-- Body of release under the handle lock (`file.c` lines 846-864): fail when
the slot does not currently hold this data id, else clear the lock bit and
signal. -/
def release_locked (sid : Nat) (fs : FileStore) (sys : FileSys) : OpResult :=
  let data_id := GET_DATAID sid
  let cache_index := data_id % fs.cache_size
  let slot := fs.data_cache.getD cache_index emptyCacheEntry
  if slot.mem_ptr = none ∨ slot.mem_data_id ≠ data_id then
    ⟨Status.failedStore, fs, sys, [], none⟩
  else
    ⟨Status.success,
      { fs with data_cache := fs.data_cache.set cache_index { slot with mem_locked := false } },
      sys, [LockEvent.signal], none⟩

/-- `bplib_store_file_release` (`file.c` lines 839-869). -/
def bplib_store_file_release (sid : Nat) (fs : FileStore) (sys : FileSys) : OpResult :=
  withLock (release_locked sid fs sys)

/-- `remove` on a `.tbl` file: the status and the `errno` it leaves
(`ENOENT = 2` when the file does not exist). -/
def remove_file_errno (present : Bool) : Int × Nat :=
  if present = true then (0, 0) else (-1, 2)

/-- `delete_tbl_file` (`file.c` lines 224-239): remove the `.tbl` file,
treating `errno == 2` (no such file) as success. -/
def delete_tbl_file (sys : FileSys) (fid : Nat) : Int × FileSys :=
  let st := remove_file_errno ((sys.tbl fid).isSome)
  let sys1 := { sys with tbl := fun f => if f = fid then none else sys.tbl f }
  if st.1 < 0 ∧ st.2 ≠ 2 then (-1, sys1) else (0, sys1)

/-- `delete_dat_file` (`file.c` lines 178-193): remove the `.dat` file,
returning a negative status when `remove` fails (the file is missing). -/
def delete_dat_file (sys : FileSys) (fid : Nat) : Int × FileSys :=
  if (sys.dat fid).isSome = true then
    (0, { sys with dat := fun f => if f = fid then none else sys.dat f })
  else
    (-1, sys)

/-- Platform outcomes driving one call of `bplib_store_file_relinquish`:
whether opening the previous `.tbl` file for write succeeds and whether the
table write is complete. -/
structure RelinquishEnv where
  open_w_ok : Bool
  write_ok : Bool
deriving DecidableEq, Repr

/-- Bucket-transition stage of relinquish (`file.c` lines 902-960): when the
sid's bucket differs from the current table's, save the previous table (if
any slot was freed) and load or zero-initialise the new bucket's table. -/
def relinquish_swap (sid : Nat) (env : RelinquishEnv) (fs : FileStore) (sys : FileSys)
    (file_id prev_file_id : Nat) : Except OpResult (FileStore × FileSys) :=
  if file_id = prev_file_id then
    Except.ok (fs, sys)
  else
    let fs1 := { fs with relinquish_data_id := sid }
    let saved : Except OpResult (FileStore × FileSys) :=
      if fs1.relinquish_table.free_cnt > 0 then
        if env.open_w_ok = false then
          Except.error ⟨Status.failedStore, fs1, sys, [], none⟩
        else
          let content := if env.write_ok = true then TblFile.whole fs1.relinquish_table else TblFile.torn
          let sys1 := { sys with tbl := fun f => if f = prev_file_id then some content else sys.tbl f }
          if env.write_ok = true then
            Except.ok (fs1, sys1)
          else
            Except.error ⟨Status.failedStore, fs1, sys1, [], none⟩
      else
        Except.ok (fs1, sys)
    match saved with
    | Except.error r => Except.error r
    | Except.ok (fs2, sys2) =>
      match sys2.tbl file_id with
      | none => Except.ok ({ fs2 with relinquish_table := zeroFreeTable }, sys2)
      | some (TblFile.whole t) => Except.ok ({ fs2 with relinquish_table := t }, sys2)
      | some TblFile.torn =>
        Except.error ⟨Status.failedStore, { fs2 with relinquish_table := zeroFreeTable }, sys2, [], none⟩

/-- Marking stage of relinquish (`file.c` lines 962-986): if the slot is not
yet freed, mark it, decrement `data_count`, bump `free_cnt`, and on a full
table delete the bucket's `.tbl` (status ignored) and `.dat` files. -/
def relinquish_mark (fs : FileStore) (sys : FileSys) (file_id data_offset : Nat) : OpResult :=
  if fs.relinquish_table.freed.getD data_offset false = false then
    let ft : FreeTable := ⟨fs.relinquish_table.freed.set data_offset true,
                           fs.relinquish_table.free_cnt + 1⟩
    let fs1 := { fs with relinquish_table := ft, data_count := fs.data_count - 1 }
    if ft.free_cnt = (FILE_DATA_COUNT : Int) then
      let tdel := delete_tbl_file sys file_id
      let ddel := delete_dat_file tdel.2 file_id
      if ddel.1 < 0 then
        ⟨Status.failedStore, fs1, ddel.2, [], none⟩
      else
        ⟨Status.success, fs1, ddel.2, [], none⟩
    else
      ⟨Status.success, fs1, sys, [], none⟩
  else
    ⟨Status.success, fs, sys, [], none⟩

/-- Cache-eviction prologue of relinquish (`file.c` lines 889-900): free the
sid's cache slot when it holds this exact data id. -/
def relinquish_clear_cache (fs : FileStore) (data_id : Nat) : FileStore :=
  let cache_index := data_id % fs.cache_size
  let slot := fs.data_cache.getD cache_index emptyCacheEntry
  match slot.mem_ptr with
  | some _ =>
    if slot.mem_data_id = data_id then
      { fs with data_cache := fs.data_cache.set cache_index ⟨none, false, BP_SID_VACANT⟩ }
    else fs
  | none => fs

/-- Continuation of relinquish after the bucket-transition stage: an error
there is returned as is, otherwise the marking stage runs. -/
def relinquish_after_swap (file_id data_offset : Nat) :
    Except OpResult (FileStore × FileSys) → OpResult
  | Except.error r => r
  | Except.ok (fs2, sys2) => relinquish_mark fs2 sys2 file_id data_offset

/-- Body of relinquish under the handle lock (`file.c` lines 880-988),
starting with the eager eviction of the sid's cache slot. -/
def relinquish_locked (sid : Nat) (env : RelinquishEnv) (fs : FileStore) (sys : FileSys) : OpResult :=
  let data_id := GET_DATAID sid
  let file_id := GET_FILEID data_id
  let data_offset := GET_DATAOFFSET data_id
  let prev_data_id := GET_DATAID fs.relinquish_data_id
  let prev_file_id := GET_FILEID prev_data_id
  let fs1 := relinquish_clear_cache fs data_id
  relinquish_after_swap file_id data_offset (relinquish_swap sid env fs1 sys file_id prev_file_id)

/-- `bplib_store_file_relinquish` (`file.c` lines 874-992). -/
def bplib_store_file_relinquish (sid : Nat) (env : RelinquishEnv) (fs : FileStore) (sys : FileSys) :
    OpResult :=
  withLock (relinquish_locked sid env fs sys)

/-- An operation applied to a store handle, for reasoning about sequences of
enqueues and dequeues after create. -/
inductive StoreOp where
  | enq (handle : Int) (d1 d2 : List Nat) (env : EnqueueEnv)
  | deq (env : DequeueEnv)
deriving Repr

/-- Apply one operation to the handle and file-system state. -/
def applyOp (op : StoreOp) (s : FileStore × FileSys) : FileStore × FileSys :=
  match op with
  | StoreOp.enq handle d1 d2 env =>
    let r := bplib_store_file_enqueue handle d1 d2 env s.1 s.2
    (r.fs, r.sys)
  | StoreOp.deq env =>
    let r := bplib_store_file_dequeue env s.1 s.2
    (r.fs, r.sys)

/-- Run a sequence of operations from an initial state. -/
def runOps (ops : List StoreOp) (s : FileStore × FileSys) : FileStore × FileSys :=
  ops.foldl (fun s op => applyOp op s) s

/-! Concrete executions used to settle the claims on explicit inputs. -/

/-- An enqueue platform environment in which every call succeeds in full for
payload lengths `n1` and `n2`. -/
def envFull (n1 n2 : Nat) : EnqueueEnv := ⟨true, 4, 16, n1, n2, true⟩

/-- A freshly created store with a 4-slot cache. -/
def demoStore4 : FileStore := bplib_store_file_create_state 0 4

/-- A freshly created store with a 1-slot cache. -/
def demoStore1 : FileStore := bplib_store_file_create_state 0 1

/-- First enqueue of the retrieve round-trip run: buffers `[1]` and `[2]`. -/
def c1_r1 : OpResult := bplib_store_file_enqueue 0 [1] [2] (envFull 1 1) demoStore4 emptyFileSys

/-- Second enqueue of the retrieve round-trip run: buffers `[3]` and `[4]`. -/
def c1_r2 : OpResult := bplib_store_file_enqueue 0 [3] [4] (envFull 1 1) c1_r1.fs c1_r1.sys

/-- Retrieve of sid 2 right after the two enqueues. -/
def c1_r3 : OpResult := bplib_store_file_retrieve 2 ⟨WaitRes.ok⟩ c1_r2.fs c1_r2.sys

/-- Dequeue run on a 1-slot cache: two enqueues, a first dequeue that locks
the only cache slot, then a second dequeue whose cache wait times out. -/
def c3_t2 : OpResult :=
  let t1 := bplib_store_file_enqueue 0 [1] [] (envFull 1 0) demoStore1 emptyFileSys
  bplib_store_file_enqueue 0 [2] [] (envFull 1 0) t1.fs t1.sys

/-- The first dequeue: succeeds and leaves cache slot 0 locked. -/
def c3_t3 : OpResult := bplib_store_file_dequeue ⟨WaitRes.ok, WaitRes.ok⟩ c3_t2.fs c3_t2.sys

/-- The second dequeue: the record is read, then the cache wait times out. -/
def c3_t4 : OpResult := bplib_store_file_dequeue ⟨WaitRes.ok, WaitRes.timedOut⟩ c3_t3.fs c3_t3.sys

/-- Release run: one enqueue, one dequeue (slot 0 resident and locked). -/
def c4_u2 : OpResult :=
  let u1 := bplib_store_file_enqueue 0 [7] [] (envFull 1 0) demoStore4 emptyFileSys
  bplib_store_file_dequeue ⟨WaitRes.ok, WaitRes.ok⟩ u1.fs u1.sys

/-- First release of sid 1: unlocks the slot. -/
def c4_u3 : OpResult := bplib_store_file_release 1 c4_u2.fs c4_u2.sys

/-- Second immediate release of sid 1. -/
def c4_u4 : OpResult := bplib_store_file_release 1 c4_u3.fs c4_u3.sys

/-- Retrieve of sid 1 while its slot is resident but unlocked. -/
def c6_u5 : OpResult := bplib_store_file_retrieve 1 ⟨WaitRes.ok⟩ c4_u3.fs c4_u3.sys

/-- A store whose write fd is already open at the start of bucket 0. -/
def c2_fs : FileStore := { demoStore4 with write_fd := some ⟨0, 0⟩ }

/-- The 257 successful enqueues of the bucket-boundary scenario. -/
def c5_ops : List StoreOp := List.replicate 257 (StoreOp.enq 0 [97] [] (envFull 1 0))

/-- The state after 257 successful one-byte enqueues on a fresh store. -/
def c5_run : FileStore × FileSys := runOps c5_ops (bplib_store_file_create_state 0 4, emptyFileSys)

/-- A store about to write the 256th record of bucket 0. -/
def c5_fs : FileStore := { demoStore4 with write_data_id := 256 }

/-- The concrete store of the bucket-deletion scenario: current table on
bucket 0 with 255 slots already freed, slot 5 still live. -/
def c7_fs : FileStore :=
  { demoStore4 with relinquish_table := ⟨(List.replicate 256 true).set 5 false, 255⟩ }

/-- The concrete file system of the bucket-deletion scenario: the `.dat`
file exists, the `.tbl` file does not. -/
def c7_sys : FileSys := ⟨fun f => if f = 0 then some [] else none, fun _ => none⟩

/-- The concrete store of the idempotence scenario: slot 5 of bucket 0
already freed. -/
def c10_fs : FileStore :=
  { demoStore4 with relinquish_table := ⟨(List.replicate 256 false).set 5 true, 1⟩,
                    data_count := 3 }

/-- Claim C1: after a successful `bplib_store_file_enqueue(h, buf1, len1,
buf2, len2, _)` that produced sid, a successful
`bplib_store_file_retrieve(h, sid, &obj, _)` yields the concatenation
`buf1 ++ buf2` with header size `len1 + len2`.  The code violates this: on a
freshly opened retrieve fd it reads from file position 0 without seeking to
the sid's slot, so retrieving sid 2 after enqueuing `[1]++[2]` then
`[3]++[4]` succeeds but returns the first record's bytes `[1, 2]` (stamped
with sid 2) instead of `[3, 4]`. -/
theorem C1_retrieve_returns_wrong_record :
    c1_r1.status = Status.success ∧ c1_r2.status = Status.success ∧
    c1_r3.status = Status.success ∧
    c1_r3.obj = some ⟨⟨0, 2, 2⟩, [1, 2]⟩ ∧
    ([1, 2] : List Nat) ≠ [3] ++ [4] := by
  decide

/-- Claim C3: a timed-out `bplib_store_file_dequeue` performs no state change
on the handle.  The code violates this on the locked-cache-slot timeout path:
the record has already been read, so the read fd's position stays advanced by
one record (position 1 before the call, 2 after), while `read_data_id` still
names the skipped record; the handle state differs from the pre-call state. -/
theorem C3_dequeue_timeout_advances_read_fd :
    c3_t4.status = Status.timeout ∧
    c3_t3.fs.read_fd = some ⟨0, 1⟩ ∧
    c3_t4.fs.read_fd = some ⟨0, 2⟩ ∧
    c3_t4.fs ≠ c3_t3.fs := by
  decide

/-- Claim C4 counterexample: the claim says a second immediate
`bplib_store_file_release(h, sid)` returns FailedStore; in the code the slot
still holds the object with the matching data id, so the second release also
returns Success. -/
theorem C4_second_release_succeeds :
    c4_u3.status = Status.success ∧
    c4_u4.status = Status.success ∧
    Status.success ≠ Status.failedStore := by
  decide

/-- Claim C6 counterexample: the claim says the cache slot is locked when a
cache-hit retrieve returns; in the code the hit path never touches the lock
bit, so retrieving a resident-but-released sid returns Success with the slot
still unlocked. -/
theorem C6_cache_hit_slot_stays_unlocked :
    c6_u5.status = Status.success ∧
    (c6_u5.fs.data_cache.getD 0 emptyCacheEntry).mem_locked = false := by
  decide

/-- Claim C9 counterexample: the claim says `bplib_store_file_enqueue` and
`bplib_store_file_getcount` acquire the per-handle lock around their
accesses; in the code neither ever calls `bplib_os_lock` — a successful
enqueue's whole lock trace is the final `bplib_os_signal`, and getcount's
trace is empty. -/
theorem C9_enqueue_getcount_never_lock :
    c1_r1.events = [LockEvent.signal] ∧
    LockEvent.lock ∉ c1_r1.events ∧
    (bplib_store_file_getcount demoStore4).2 = [] := by
  decide

/-! General lemmas about the enqueue stages. -/

/-- With the write fd closed the write stage fails without touching the
state (unreachable after a successful open stage). -/
theorem enqueue_write_fd_none (handle : Int) (d1 d2 : List Nat) (env : EnqueueEnv)
    (fs : FileStore) (sys : FileSys) (h : fs.write_fd = none) :
    enqueue_write handle d1 d2 env fs sys = ⟨Status.failedStore, fs, sys, [], none⟩ := by
  unfold enqueue_write
  rw [h]

/-- A short write or flush failure makes the write stage fail, set
`write_error`, close the write fd, and leave every other handle field as it
was. -/
theorem enqueue_write_fail (handle : Int) (d1 d2 : List Nat) (env : EnqueueEnv)
    (fs : FileStore) (sys : FileSys) (fd : FdState) (h : fs.write_fd = some fd)
    (hcond : enqueue_bytes_written env d1 d2 ≠ enqueue_object_size d1 d2 + 4 ∨
             (file_flush = true ∧ env.flush_ok = false)) :
    (enqueue_write handle d1 d2 env fs sys).status = Status.failedStore ∧
    (enqueue_write handle d1 d2 env fs sys).fs =
      { fs with write_error := true, write_fd := none } ∧
    (enqueue_write handle d1 d2 env fs sys).events = [] := by
  unfold enqueue_write
  rw [h]
  simp only []
  rw [if_pos hcond]
  exact ⟨rfl, rfl, rfl⟩

/-- A complete write and flush commits: Success, `write_error` cleared,
`write_data_id` and `data_count` advanced, and the fd closed exactly when
the bucket just filled. -/
theorem enqueue_write_succ (handle : Int) (d1 d2 : List Nat) (env : EnqueueEnv)
    (fs : FileStore) (sys : FileSys) (fd : FdState) (h : fs.write_fd = some fd)
    (hcond : ¬(enqueue_bytes_written env d1 d2 ≠ enqueue_object_size d1 d2 + 4 ∨
               (file_flush = true ∧ env.flush_ok = false))) :
    (enqueue_write handle d1 d2 env fs sys).status = Status.success ∧
    (enqueue_write handle d1 d2 env fs sys).fs.write_data_id = fs.write_data_id + 1 ∧
    (enqueue_write handle d1 d2 env fs sys).fs.data_count = fs.data_count + 1 ∧
    (enqueue_write handle d1 d2 env fs sys).fs.read_data_id = fs.read_data_id ∧
    (enqueue_write handle d1 d2 env fs sys).fs.write_error = false ∧
    (enqueue_write handle d1 d2 env fs sys).events = [LockEvent.signal] ∧
    (fs.write_data_id % FILE_DATA_COUNT = 0 →
      (enqueue_write handle d1 d2 env fs sys).fs.write_fd = none) := by
  unfold enqueue_write
  rw [h]
  simp only []
  rw [if_neg hcond]
  by_cases hm : fs.write_data_id % FILE_DATA_COUNT = 0 <;> simp [hm]

/-- The open stage either fails with FailedStore, leaving the ids, counters
and read state untouched and producing no lock events, or succeeds with the
write fd open and everything except the write fd untouched. -/
theorem enqueue_open_spec (env : EnqueueEnv) (fs : FileStore) (sys : FileSys) (fid off : Nat) :
    (∃ r, enqueue_open env fs sys fid off = Except.error r ∧
       r.status = Status.failedStore ∧ r.fs.read_data_id = fs.read_data_id ∧
       r.fs.write_data_id = fs.write_data_id ∧ r.fs.data_count = fs.data_count ∧
       r.events = []) ∨
    (∃ fs1 sys1, enqueue_open env fs sys fid off = Except.ok (fs1, sys1) ∧
       fs1.read_data_id = fs.read_data_id ∧ fs1.write_data_id = fs.write_data_id ∧
       fs1.data_count = fs.data_count ∧ fs1.write_fd.isSome = true) := by
  unfold enqueue_open
  cases hfd : fs.write_fd with
  | some fd =>
    right
    exact ⟨fs, sys, rfl, rfl, rfl, rfl, by rw [hfd]; rfl⟩
  | none =>
    by_cases ho : env.open_ok = false
    · rw [if_pos ho]
      left
      exact ⟨_, rfl, rfl, rfl, rfl, rfl, rfl⟩
    · rw [if_neg ho]
      simp only []
      by_cases he : fs.write_error = true
      · rw [if_pos he]
        by_cases hs : (skipRecords ((FileSys.createDat sys fid).dat fid |>.getD []) 0 off).1 = false
        · rw [if_pos hs]
          left
          exact ⟨_, rfl, rfl, rfl, rfl, rfl, rfl⟩
        · rw [if_neg hs]
          right
          exact ⟨_, _, rfl, rfl, rfl, rfl, rfl⟩
      · rw [if_neg he]
        right
        exact ⟨_, _, rfl, rfl, rfl, rfl, rfl⟩

/-- Per-call facts about `bplib_store_file_enqueue`: `read_data_id` is never
touched; `write_data_id` and `data_count` advance (by one) exactly on the
Success path; the lock trace is empty or a single signal. -/
theorem enqueue_fs_spec (handle : Int) (d1 d2 : List Nat) (env : EnqueueEnv)
    (fs : FileStore) (sys : FileSys) :
    (bplib_store_file_enqueue handle d1 d2 env fs sys).fs.read_data_id = fs.read_data_id ∧
    ((bplib_store_file_enqueue handle d1 d2 env fs sys).fs.write_data_id = fs.write_data_id ∨
      ((bplib_store_file_enqueue handle d1 d2 env fs sys).status = Status.success ∧
       (bplib_store_file_enqueue handle d1 d2 env fs sys).fs.write_data_id = fs.write_data_id + 1)) ∧
    ((bplib_store_file_enqueue handle d1 d2 env fs sys).fs.data_count = fs.data_count ∨
      ((bplib_store_file_enqueue handle d1 d2 env fs sys).status = Status.success ∧
       (bplib_store_file_enqueue handle d1 d2 env fs sys).fs.data_count = fs.data_count + 1)) ∧
    ((bplib_store_file_enqueue handle d1 d2 env fs sys).events = [] ∨
      (bplib_store_file_enqueue handle d1 d2 env fs sys).events = [LockEvent.signal]) := by
  unfold bplib_store_file_enqueue
  simp only []
  rcases enqueue_open_spec env fs sys (GET_FILEID (GET_DATAID fs.write_data_id))
      (GET_DATAOFFSET (GET_DATAID fs.write_data_id)) with
    ⟨r, heq, hst, hrd, hwd, hdc, hev⟩ | ⟨fs1, sys1, heq, hrd, hwd, hdc, hfd⟩
  · rw [heq]
    exact ⟨hrd, Or.inl hwd, Or.inl hdc, Or.inl hev⟩
  · rw [heq]
    cases hfd' : fs1.write_fd with
    | none => rw [hfd'] at hfd; simp at hfd
    | some fd =>
      by_cases hcond : enqueue_bytes_written env d1 d2 ≠ enqueue_object_size d1 d2 + 4 ∨
          (file_flush = true ∧ env.flush_ok = false)
      · obtain ⟨h1, h2, h3⟩ := enqueue_write_fail handle d1 d2 env fs1 sys1 fd hfd' hcond
        refine ⟨?_, Or.inl ?_, Or.inl ?_, Or.inl h3⟩ <;> rw [h2]
        · exact hrd
        · exact hwd
        · exact hdc
      · obtain ⟨h1, h2, h3, h4, _, h6, _⟩ := enqueue_write_succ handle d1 d2 env fs1 sys1 fd hfd' hcond
        exact ⟨h4.trans hrd, Or.inr ⟨h1, by rw [h2, hwd]⟩, Or.inr ⟨h1, by rw [h3, hdc]⟩, Or.inr h6⟩

/-- Inversion of a successful open stage: ids and counters are preserved and
the write fd is open. -/
theorem enqueue_open_ok_facts (env : EnqueueEnv) (fs : FileStore) (sys : FileSys)
    (fid off : Nat) (fs1 : FileStore) (sys1 : FileSys)
    (h : enqueue_open env fs sys fid off = Except.ok (fs1, sys1)) :
    fs1.read_data_id = fs.read_data_id ∧ fs1.write_data_id = fs.write_data_id ∧
    fs1.data_count = fs.data_count ∧ fs1.write_fd.isSome = true := by
  rcases enqueue_open_spec env fs sys fid off with
    ⟨r, heq, _⟩ | ⟨fs1', sys1', heq, h1, h2, h3, h4⟩
  · rw [heq] at h; simp at h
  · rw [heq] at h
    simp only [Except.ok.injEq, Prod.mk.injEq] at h
    obtain ⟨h5, h6⟩ := h
    subst h5
    exact ⟨h1, h2, h3, h4⟩

/-- Claim C2: whenever `bplib_store_file_enqueue` suffers a partial write or
flush failure it returns FailedStore, sets `write_error`, closes the write
fd, and leaves `write_data_id` and `data_count` unchanged; both counters
advance only on the Success path, so the next enqueue replays the same
position. -/
theorem C2_enqueue_partial_write_failure (handle : Int) (d1 d2 : List Nat) (env : EnqueueEnv)
    (fs : FileStore) (sys : FileSys) :
    ((bplib_store_file_enqueue handle d1 d2 env fs sys).fs.write_data_id = fs.write_data_id ∨
      ((bplib_store_file_enqueue handle d1 d2 env fs sys).status = Status.success ∧
       (bplib_store_file_enqueue handle d1 d2 env fs sys).fs.write_data_id = fs.write_data_id + 1)) ∧
    ((bplib_store_file_enqueue handle d1 d2 env fs sys).fs.data_count = fs.data_count ∨
      ((bplib_store_file_enqueue handle d1 d2 env fs sys).status = Status.success ∧
       (bplib_store_file_enqueue handle d1 d2 env fs sys).fs.data_count = fs.data_count + 1)) ∧
    (∀ fs1 sys1,
      enqueue_open env fs sys (GET_FILEID (GET_DATAID fs.write_data_id))
        (GET_DATAOFFSET (GET_DATAID fs.write_data_id)) = Except.ok (fs1, sys1) →
      (enqueue_bytes_written env d1 d2 ≠ enqueue_object_size d1 d2 + 4 ∨
        (file_flush = true ∧ env.flush_ok = false)) →
      (bplib_store_file_enqueue handle d1 d2 env fs sys).status = Status.failedStore ∧
      (bplib_store_file_enqueue handle d1 d2 env fs sys).fs.write_error = true ∧
      (bplib_store_file_enqueue handle d1 d2 env fs sys).fs.write_fd = none ∧
      (bplib_store_file_enqueue handle d1 d2 env fs sys).fs.write_data_id = fs.write_data_id ∧
      (bplib_store_file_enqueue handle d1 d2 env fs sys).fs.data_count = fs.data_count) := by
  obtain ⟨_, hw, hd, _⟩ := enqueue_fs_spec handle d1 d2 env fs sys
  refine ⟨hw, hd, ?_⟩
  intro fs1 sys1 hok hcond
  obtain ⟨hrd, hwd, hdc, hfd⟩ := enqueue_open_ok_facts env fs sys _ _ fs1 sys1 hok
  cases hfd' : fs1.write_fd with
  | none => rw [hfd'] at hfd; simp at hfd
  | some fd =>
    obtain ⟨h1, h2, h3⟩ := enqueue_write_fail handle d1 d2 env fs1 sys1 fd hfd' hcond
    unfold bplib_store_file_enqueue
    simp only []
    rw [hok]
    refine ⟨h1, ?_, ?_, ?_, ?_⟩ <;> rw [h2]
    · exact hwd
    · exact hdc


/-- Witness for C2: a concrete enqueue whose `fwrite` of the first buffer
returns 0 bytes fails as claimed. -/
theorem C2_witness :
    (bplib_store_file_enqueue 0 [1] [] ⟨true, 4, 16, 0, 0, true⟩ c2_fs emptyFileSys).status =
      Status.failedStore ∧
    (bplib_store_file_enqueue 0 [1] [] ⟨true, 4, 16, 0, 0, true⟩ c2_fs emptyFileSys).fs.write_error =
      true ∧
    (bplib_store_file_enqueue 0 [1] [] ⟨true, 4, 16, 0, 0, true⟩ c2_fs emptyFileSys).fs.write_fd =
      none ∧
    (bplib_store_file_enqueue 0 [1] [] ⟨true, 4, 16, 0, 0, true⟩ c2_fs emptyFileSys).fs.write_data_id =
      c2_fs.write_data_id ∧
    (bplib_store_file_enqueue 0 [1] [] ⟨true, 4, 16, 0, 0, true⟩ c2_fs emptyFileSys).fs.data_count =
      c2_fs.data_count :=
  (C2_enqueue_partial_write_failure 0 [1] [] ⟨true, 4, 16, 0, 0, true⟩ c2_fs emptyFileSys).2.2
    c2_fs emptyFileSys rfl (Or.inl (by decide))



set_option maxRecDepth 100000 in
/-- Claim C5: a successful enqueue whose 1-based `write_data_id` is a
multiple of 256 closes the write fd, so each bucket receives exactly 256
records; after 257 successful enqueues bucket file 0 holds 256 records,
bucket file 1 holds 1 record, and getcount returns 257. -/
theorem C5_bucket_boundary :
    (∀ (handle : Int) (d1 d2 : List Nat) (env : EnqueueEnv) (fs : FileStore) (sys : FileSys),
      fs.write_data_id % FILE_DATA_COUNT = 0 →
      (bplib_store_file_enqueue handle d1 d2 env fs sys).status = Status.success →
      (bplib_store_file_enqueue handle d1 d2 env fs sys).fs.write_fd = none) ∧
    ((c5_run.2.dat 0).getD []).length = 256 ∧
    ((c5_run.2.dat 1).getD []).length = 1 ∧
    (bplib_store_file_getcount c5_run.1).1 = 257 := by
  refine ⟨?_, by decide, by decide, by decide⟩
  intro handle d1 d2 env fs sys hmod hst
  unfold bplib_store_file_enqueue at hst ⊢
  simp only [] at hst ⊢
  rcases enqueue_open_spec env fs sys (GET_FILEID (GET_DATAID fs.write_data_id))
      (GET_DATAOFFSET (GET_DATAID fs.write_data_id)) with
    ⟨r, heq, hstf, _⟩ | ⟨fs1, sys1, heq, _, hwd, _, hfd⟩
  · rw [heq] at hst
    rw [hstf] at hst
    cases hst
  · rw [heq] at hst ⊢
    cases hfd' : fs1.write_fd with
    | none =>
      rw [hfd'] at hfd; simp at hfd
    | some fd =>
      by_cases hcond : enqueue_bytes_written env d1 d2 ≠ enqueue_object_size d1 d2 + 4 ∨
          (file_flush = true ∧ env.flush_ok = false)
      · obtain ⟨h1, _, _⟩ := enqueue_write_fail handle d1 d2 env fs1 sys1 fd hfd' hcond
        rw [h1] at hst
        cases hst
      · obtain ⟨_, _, _, _, _, _, h7⟩ := enqueue_write_succ handle d1 d2 env fs1 sys1 fd hfd' hcond
        exact h7 (by rw [hwd]; exact hmod)


/-- Witness for C5: the 256th successful enqueue closes the write fd. -/
theorem C5_witness :
    (bplib_store_file_enqueue 0 [1] [] (envFull 1 0) c5_fs emptyFileSys).fs.write_fd = none :=
  C5_bucket_boundary.1 0 [1] [] (envFull 1 0) c5_fs emptyFileSys (by decide) (by decide)

/-! General lemmas about the dequeue stages. -/

/-- The install stage succeeds and advances `read_data_id` by one, leaving
`write_data_id` alone. -/
theorem dequeue_install_ids (pre : List LockEvent) (fs : FileStore) (sys : FileSys)
    (data_id : Nat) (obj : BpObject) (ci : Nat) :
    (dequeue_install pre fs sys data_id obj ci).status = Status.success ∧
    (dequeue_install pre fs sys data_id obj ci).fs.write_data_id = fs.write_data_id ∧
    (dequeue_install pre fs sys data_id obj ci).fs.read_data_id = fs.read_data_id + 1 := by
  unfold dequeue_install
  by_cases h : fs.read_data_id % FILE_DATA_COUNT = 0 <;> simp [h]

/-- The cache stage never touches `write_data_id` and advances
`read_data_id` only on the Success path. -/
theorem dequeue_cache_ids (pre : List LockEvent) (env : DequeueEnv) (fs : FileStore)
    (sys : FileSys) (data_id : Nat) (obj : BpObject) :
    (dequeue_cache pre env fs sys data_id obj).fs.write_data_id = fs.write_data_id ∧
    ((dequeue_cache pre env fs sys data_id obj).fs.read_data_id = fs.read_data_id ∨
      ((dequeue_cache pre env fs sys data_id obj).status = Status.success ∧
       (dequeue_cache pre env fs sys data_id obj).fs.read_data_id = fs.read_data_id + 1)) := by
  unfold dequeue_cache
  by_cases hl : (fs.data_cache.getD (data_id % fs.cache_size) emptyCacheEntry).mem_locked = true
  · rw [if_pos hl]
    cases env.wait_cache with
    | ok =>
      rw [if_pos hl]
      exact ⟨rfl, Or.inl rfl⟩
    | timedOut => exact ⟨rfl, Or.inl rfl⟩
    | err => exact ⟨rfl, Or.inl rfl⟩
  · rw [if_neg hl]
    obtain ⟨h1, h2, h3⟩ := dequeue_install_ids pre fs sys data_id obj (data_id % fs.cache_size)
    exact ⟨h2, Or.inr ⟨h1, h3⟩⟩

/-- The record-read step never touches `write_data_id` and advances
`read_data_id` only on the Success path. -/
theorem dequeue_read3_ids (pre : List LockEvent) (env : DequeueEnv) (fs : FileStore)
    (sys : FileSys) (data_id : Nat) (fd : FdState) :
    (dequeue_read3 pre env fs sys data_id fd).fs.write_data_id = fs.write_data_id ∧
    ((dequeue_read3 pre env fs sys data_id fd).fs.read_data_id = fs.read_data_id ∨
      ((dequeue_read3 pre env fs sys data_id fd).status = Status.success ∧
       (dequeue_read3 pre env fs sys data_id fd).fs.read_data_id = fs.read_data_id + 1)) := by
  unfold dequeue_read3
  split
  · exact dequeue_cache_ids pre env _ sys data_id _
  · exact ⟨rfl, Or.inl rfl⟩

/-- The read stage never touches `write_data_id` and advances
`read_data_id` only on the Success path. -/
theorem dequeue_read2_ids (pre : List LockEvent) (env : DequeueEnv) (fs : FileStore)
    (sys : FileSys) (data_id data_offset : Nat) :
    (dequeue_read2 pre env fs sys data_id data_offset).fs.write_data_id = fs.write_data_id ∧
    ((dequeue_read2 pre env fs sys data_id data_offset).fs.read_data_id = fs.read_data_id ∨
      ((dequeue_read2 pre env fs sys data_id data_offset).status = Status.success ∧
       (dequeue_read2 pre env fs sys data_id data_offset).fs.read_data_id = fs.read_data_id + 1)) := by
  unfold dequeue_read2
  cases hfd : fs.read_fd with
  | none => exact ⟨rfl, Or.inl rfl⟩
  | some fd =>
    simp only []
    by_cases he : fs.read_error = true
    · rw [if_pos he]
      by_cases hs : (skipRecords ((sys.dat fd.file_id).getD []) 0 data_offset).1 = false
      · rw [if_pos hs]
        exact ⟨rfl, Or.inl rfl⟩
      · rw [if_neg hs]
        exact dequeue_read3_ids pre env fs sys data_id _
    · rw [if_neg he]
      exact dequeue_read3_ids pre env fs sys data_id fd

/-- The open stage never touches `write_data_id` and advances
`read_data_id` only on the Success path. -/
theorem dequeue_read_ids (pre : List LockEvent) (env : DequeueEnv) (fs : FileStore)
    (sys : FileSys) (data_id file_id data_offset : Nat) :
    (dequeue_read pre env fs sys data_id file_id data_offset).fs.write_data_id = fs.write_data_id ∧
    ((dequeue_read pre env fs sys data_id file_id data_offset).fs.read_data_id = fs.read_data_id ∨
      ((dequeue_read pre env fs sys data_id file_id data_offset).status = Status.success ∧
       (dequeue_read pre env fs sys data_id file_id data_offset).fs.read_data_id =
         fs.read_data_id + 1)) := by
  unfold dequeue_read
  cases hfd : fs.read_fd with
  | none =>
    cases hdat : sys.dat file_id with
    | none => exact ⟨rfl, Or.inl rfl⟩
    | some chunks => exact dequeue_read2_ids pre env _ sys data_id data_offset
  | some fd => exact dequeue_read2_ids pre env fs sys data_id data_offset

/-- `bplib_store_file_dequeue` never touches `write_data_id`, and advances
`read_data_id` by one only after the `read_data_id != write_data_id` check
and only on the Success path. -/
theorem dequeue_fs_spec (env : DequeueEnv) (fs : FileStore) (sys : FileSys) :
    (bplib_store_file_dequeue env fs sys).fs.write_data_id = fs.write_data_id ∧
    ((bplib_store_file_dequeue env fs sys).fs.read_data_id = fs.read_data_id ∨
      (fs.read_data_id ≠ fs.write_data_id ∧
       (bplib_store_file_dequeue env fs sys).status = Status.success ∧
       (bplib_store_file_dequeue env fs sys).fs.read_data_id = fs.read_data_id + 1)) := by
  show (dequeue_locked env fs sys).fs.write_data_id = fs.write_data_id ∧
    ((dequeue_locked env fs sys).fs.read_data_id = fs.read_data_id ∨
      (fs.read_data_id ≠ fs.write_data_id ∧
       (dequeue_locked env fs sys).status = Status.success ∧
       (dequeue_locked env fs sys).fs.read_data_id = fs.read_data_id + 1))
  unfold dequeue_locked
  by_cases he : fs.read_data_id = fs.write_data_id
  · rw [if_pos he]
    cases env.wait_empty with
    | ok =>
      rw [if_pos he]
      exact ⟨rfl, Or.inl rfl⟩
    | timedOut => exact ⟨rfl, Or.inl rfl⟩
    | err => exact ⟨rfl, Or.inl rfl⟩
  · rw [if_neg he]
    obtain ⟨h1, h2⟩ := dequeue_read_ids [] env fs sys (GET_DATAID fs.read_data_id)
      (GET_FILEID (GET_DATAID fs.read_data_id)) (GET_DATAOFFSET (GET_DATAID fs.read_data_id))
    rcases h2 with h2 | ⟨h2, h3⟩
    · exact ⟨h1, Or.inl h2⟩
    · exact ⟨h1, Or.inr ⟨he, h2, h3⟩⟩

/-- Along any run of enqueues and dequeues, `read_data_id ≤ write_data_id`
is preserved. -/
theorem runOps_read_le_write (ops : List StoreOp) (s : FileStore × FileSys)
    (h : s.1.read_data_id ≤ s.1.write_data_id) :
    (runOps ops s).1.read_data_id ≤ (runOps ops s).1.write_data_id := by
  induction ops generalizing s with
  | nil => exact h
  | cons op ops ih =>
    have hstep : (applyOp op s).1.read_data_id ≤ (applyOp op s).1.write_data_id := by
      cases op with
      | enq handle d1 d2 env =>
        obtain ⟨h1, h2, _, _⟩ := enqueue_fs_spec handle d1 d2 env s.1 s.2
        show (bplib_store_file_enqueue handle d1 d2 env s.1 s.2).fs.read_data_id ≤
          (bplib_store_file_enqueue handle d1 d2 env s.1 s.2).fs.write_data_id
        rcases h2 with h2 | ⟨_, h2⟩ <;> rw [h1, h2] <;> omega
      | deq env =>
        obtain ⟨h1, h2⟩ := dequeue_fs_spec env s.1 s.2
        show (bplib_store_file_dequeue env s.1 s.2).fs.read_data_id ≤
          (bplib_store_file_dequeue env s.1 s.2).fs.write_data_id
        rcases h2 with h2 | ⟨hne, _, h2⟩ <;> rw [h1, h2] <;> omega
    exact ih (applyOp op s) hstep

/-- Claim C8: create initialises `read_data_id` and `write_data_id` to 1;
enqueue is the only one of the two operations that moves `write_data_id`
(adding one, on success only) and never moves `read_data_id`; dequeue never
moves `write_data_id` and adds one to `read_data_id` only after the
`read_data_id != write_data_id` check; both counters are non-decreasing; and
along every run of enqueues/dequeues from a created store,
`read_data_id ≤ write_data_id`. -/
theorem C8_id_monotonicity :
    (∀ svc c, (bplib_store_file_create_state svc c).read_data_id = 1 ∧
       (bplib_store_file_create_state svc c).write_data_id = 1) ∧
    (∀ (handle : Int) (d1 d2 : List Nat) (env : EnqueueEnv) (fs : FileStore) (sys : FileSys),
       (bplib_store_file_enqueue handle d1 d2 env fs sys).fs.read_data_id = fs.read_data_id ∧
       fs.write_data_id ≤ (bplib_store_file_enqueue handle d1 d2 env fs sys).fs.write_data_id ∧
       ((bplib_store_file_enqueue handle d1 d2 env fs sys).fs.write_data_id = fs.write_data_id ∨
         ((bplib_store_file_enqueue handle d1 d2 env fs sys).status = Status.success ∧
          (bplib_store_file_enqueue handle d1 d2 env fs sys).fs.write_data_id =
            fs.write_data_id + 1))) ∧
    (∀ (env : DequeueEnv) (fs : FileStore) (sys : FileSys),
       (bplib_store_file_dequeue env fs sys).fs.write_data_id = fs.write_data_id ∧
       fs.read_data_id ≤ (bplib_store_file_dequeue env fs sys).fs.read_data_id ∧
       ((bplib_store_file_dequeue env fs sys).fs.read_data_id = fs.read_data_id ∨
         (fs.read_data_id ≠ fs.write_data_id ∧
          (bplib_store_file_dequeue env fs sys).fs.read_data_id = fs.read_data_id + 1))) ∧
    (∀ (ops : List StoreOp) (svc c : Nat),
       (runOps ops (bplib_store_file_create_state svc c, emptyFileSys)).1.read_data_id ≤
       (runOps ops (bplib_store_file_create_state svc c, emptyFileSys)).1.write_data_id) := by
  refine ⟨fun svc c => ⟨rfl, rfl⟩, ?_, ?_, ?_⟩
  · intro handle d1 d2 env fs sys
    obtain ⟨h1, h2, _, _⟩ := enqueue_fs_spec handle d1 d2 env fs sys
    refine ⟨h1, ?_, h2⟩
    rcases h2 with h2 | ⟨_, h2⟩ <;> omega
  · intro env fs sys
    obtain ⟨h1, h2⟩ := dequeue_fs_spec env fs sys
    refine ⟨h1, ?_, ?_⟩
    · rcases h2 with h2 | ⟨_, _, h2⟩ <;> omega
    · rcases h2 with h2 | ⟨hne, _, h2⟩
      · exact Or.inl h2
      · exact Or.inr ⟨hne, h2⟩
  · intro ops svc c
    exact runOps_read_le_write ops _ (by exact Nat.le_refl 1)

/-! Lock-discipline lemmas and the remaining claims. -/

/-- A list ending in `[a]` has last element `a` (stated for event traces). -/
theorem events_getLast_concat (l : List LockEvent) (a : LockEvent) :
    (l ++ [a]).getLast? = some a :=
  List.getLast?_concat l

/-- The lock wrapper's trace starts with the lock acquisition. -/
theorem withLock_events (r : OpResult) :
    (withLock r).events = LockEvent.lock :: r.events ++ [LockEvent.unlock] := rfl

/-- The lock wrapper passes the returned status through. -/
theorem withLock_status (r : OpResult) : (withLock r).status = r.status := rfl

/-- The lock wrapper passes the handle state through. -/
theorem withLock_fs (r : OpResult) : (withLock r).fs = r.fs := rfl

/-- The lock wrapper passes the file system through. -/
theorem withLock_sys (r : OpResult) : (withLock r).sys = r.sys := rfl

/-- Claim C9 (amended): dequeue, retrieve, release and relinquish run their
bodies bracketed by `bplib_os_lock` / `bplib_os_unlock`, while enqueue and
getcount never acquire the per-handle lock. -/
theorem C9_lock_discipline :
    (∀ (env : DequeueEnv) (fs : FileStore) (sys : FileSys),
       (bplib_store_file_dequeue env fs sys).events.head? = some LockEvent.lock ∧
       (bplib_store_file_dequeue env fs sys).events.getLast? = some LockEvent.unlock) ∧
    (∀ (sid : Nat) (env : RetrieveEnv) (fs : FileStore) (sys : FileSys),
       (bplib_store_file_retrieve sid env fs sys).events.head? = some LockEvent.lock ∧
       (bplib_store_file_retrieve sid env fs sys).events.getLast? = some LockEvent.unlock) ∧
    (∀ (sid : Nat) (fs : FileStore) (sys : FileSys),
       (bplib_store_file_release sid fs sys).events.head? = some LockEvent.lock ∧
       (bplib_store_file_release sid fs sys).events.getLast? = some LockEvent.unlock) ∧
    (∀ (sid : Nat) (env : RelinquishEnv) (fs : FileStore) (sys : FileSys),
       (bplib_store_file_relinquish sid env fs sys).events.head? = some LockEvent.lock ∧
       (bplib_store_file_relinquish sid env fs sys).events.getLast? = some LockEvent.unlock) ∧
    (∀ (handle : Int) (d1 d2 : List Nat) (env : EnqueueEnv) (fs : FileStore) (sys : FileSys),
       LockEvent.lock ∉ (bplib_store_file_enqueue handle d1 d2 env fs sys).events ∧
       LockEvent.unlock ∉ (bplib_store_file_enqueue handle d1 d2 env fs sys).events) ∧
    (∀ fs : FileStore, (bplib_store_file_getcount fs).2 = []) := by
  refine ⟨?_, ?_, ?_, ?_, ?_, fun _ => rfl⟩
  · intro env fs sys
    rw [bplib_store_file_dequeue, withLock_events]
    exact ⟨rfl, events_getLast_concat _ _⟩
  · intro sid env fs sys
    rw [bplib_store_file_retrieve, withLock_events]
    exact ⟨rfl, events_getLast_concat _ _⟩
  · intro sid fs sys
    rw [bplib_store_file_release, withLock_events]
    exact ⟨rfl, events_getLast_concat _ _⟩
  · intro sid env fs sys
    rw [bplib_store_file_relinquish, withLock_events]
    exact ⟨rfl, events_getLast_concat _ _⟩
  · intro handle d1 d2 env fs sys
    obtain ⟨_, _, _, hev⟩ := enqueue_fs_spec handle d1 d2 env fs sys
    rcases hev with hev | hev <;> rw [hev] <;> simp

/-- Setting then reading the same in-range index of a list yields the new
value. -/
theorem list_getD_set_self {α : Type} : ∀ (l : List α) (i : Nat) (v d : α),
    i < l.length → (l.set i v).getD i d = v
  | _ :: _, 0, _, _, _ => rfl
  | _ :: l, i + 1, v, d, h => list_getD_set_self l i v d (Nat.lt_of_succ_lt_succ h)

/-- Projection equation for the release lock wrapper. -/
theorem release_status_eq (sid : Nat) (fs : FileStore) (sys : FileSys) :
    (bplib_store_file_release sid fs sys).status = (release_locked sid fs sys).status :=
  withLock_status _

/-- The released handle state is the state computed under the lock. -/
theorem release_fs_eq (sid : Nat) (fs : FileStore) (sys : FileSys) :
    (bplib_store_file_release sid fs sys).fs = (release_locked sid fs sys).fs :=
  withLock_fs _

/-- A resident slot makes `release_locked` succeed, clearing the lock bit of
exactly that slot and signalling. -/
theorem release_locked_resident (sid : Nat) (fs : FileStore) (sys : FileSys)
    (h1 : (fs.data_cache.getD (GET_DATAID sid % fs.cache_size) emptyCacheEntry).mem_ptr ≠ none)
    (h2 : (fs.data_cache.getD (GET_DATAID sid % fs.cache_size) emptyCacheEntry).mem_data_id =
      GET_DATAID sid) :
    release_locked sid fs sys =
      ⟨Status.success,
        { fs with data_cache := (fs.data_cache.set (GET_DATAID sid % fs.cache_size)
            { fs.data_cache.getD (GET_DATAID sid % fs.cache_size) emptyCacheEntry with
                mem_locked := false }) },
        sys, [LockEvent.signal], none⟩ := by
  unfold release_locked
  rw [if_neg (not_or.mpr ⟨h1, fun hne => hne h2⟩)]

/-- Claim C4 (amended): releasing a sid whose object is resident in its
cache slot returns Success and unlocks the slot; a second immediate release
of the same sid also returns Success (release is idempotent while the object
stays resident); releasing a sid not resident in its slot returns
FailedStore. -/
theorem C4_release_semantics (sid : Nat) (fs : FileStore) (sys : FileSys)
    (h1 : (fs.data_cache.getD (GET_DATAID sid % fs.cache_size) emptyCacheEntry).mem_ptr ≠ none)
    (h2 : (fs.data_cache.getD (GET_DATAID sid % fs.cache_size) emptyCacheEntry).mem_data_id =
      GET_DATAID sid) :
    (bplib_store_file_release sid fs sys).status = Status.success ∧
    ((bplib_store_file_release sid fs sys).fs.data_cache.getD
      (GET_DATAID sid % fs.cache_size) emptyCacheEntry).mem_locked = false ∧
    (bplib_store_file_release sid (bplib_store_file_release sid fs sys).fs sys).status =
      Status.success ∧
    (∀ fs' : FileStore,
      ((fs'.data_cache.getD (GET_DATAID sid % fs'.cache_size) emptyCacheEntry).mem_ptr = none ∨
       (fs'.data_cache.getD (GET_DATAID sid % fs'.cache_size) emptyCacheEntry).mem_data_id ≠
         GET_DATAID sid) →
      (bplib_store_file_release sid fs' sys).status = Status.failedStore) := by
  have hlt : GET_DATAID sid % fs.cache_size < fs.data_cache.length := by
    by_contra hge
    push_neg at hge
    rw [List.getD_eq_default _ _ hge] at h1
    exact h1 rfl
  have hrel := release_locked_resident sid fs sys h1 h2
  have hslot : ((bplib_store_file_release sid fs sys).fs.data_cache.getD
      (GET_DATAID sid % fs.cache_size) emptyCacheEntry) =
      { fs.data_cache.getD (GET_DATAID sid % fs.cache_size) emptyCacheEntry with
          mem_locked := false } := by
    rw [release_fs_eq, hrel]
    exact list_getD_set_self _ _ _ _ hlt
  have hcs : (bplib_store_file_release sid fs sys).fs.cache_size = fs.cache_size := by
    rw [release_fs_eq, hrel]
  refine ⟨?_, ?_, ?_, ?_⟩
  · rw [release_status_eq, hrel]
  · rw [hslot]
  · have hrel2 := release_locked_resident sid (bplib_store_file_release sid fs sys).fs sys
      (by rw [hcs, hslot]; exact h1) (by rw [hcs, hslot]; exact h2)
    rw [release_status_eq, hrel2]
  · intro fs' h'
    rw [release_status_eq]
    unfold release_locked
    rw [if_pos h']

/-- Witness for C4 (amended): the concrete resident slot of the release run
behaves as the amended claim states. -/
theorem C4_witness :
    (bplib_store_file_release 1 c4_u2.fs c4_u2.sys).status = Status.success ∧
    ((bplib_store_file_release 1 c4_u2.fs c4_u2.sys).fs.data_cache.getD
      (GET_DATAID 1 % c4_u2.fs.cache_size) emptyCacheEntry).mem_locked = false ∧
    (bplib_store_file_release 1 (bplib_store_file_release 1 c4_u2.fs c4_u2.sys).fs
      c4_u2.sys).status = Status.success :=
  let h := C4_release_semantics 1 c4_u2.fs c4_u2.sys (by decide) (by decide)
  ⟨h.1, h.2.1, h.2.2.1⟩

/-- Unfolding equation for the retrieve lock wrapper as a whole result. -/
theorem retrieve_unfold (sid : Nat) (env : RetrieveEnv) (fs : FileStore) (sys : FileSys) :
    bplib_store_file_retrieve sid env fs sys = withLock (retrieve_locked sid env fs sys) := rfl

/-- Claim C6 (amended): when the cache slot at `(sid-1) mod cache_size`
holds the object with data id `sid-1`, retrieve returns that object with
Success, performs no file I/O and no state change at all; in particular the
slot's lock bit is left exactly as it was (the hit path does not lock it). -/
theorem C6_cache_hit_no_io (sid : Nat) (env : RetrieveEnv) (fs : FileStore) (sys : FileSys)
    (o : BpObject)
    (h1 : (fs.data_cache.getD (GET_DATAID sid % fs.cache_size) emptyCacheEntry).mem_ptr = some o)
    (h2 : (fs.data_cache.getD (GET_DATAID sid % fs.cache_size) emptyCacheEntry).mem_data_id =
      GET_DATAID sid) :
    bplib_store_file_retrieve sid env fs sys =
      ⟨Status.success, fs, sys, [LockEvent.lock, LockEvent.unlock], some o⟩ := by
  have hlocked : retrieve_locked sid env fs sys = ⟨Status.success, fs, sys, [], some o⟩ := by
    unfold retrieve_locked
    simp only []
    rw [h1]
    simp only []
    rw [if_pos h2]
  rw [retrieve_unfold, hlocked]
  rfl

/-- Witness for C6 (amended): the concrete resident-and-released slot of the
release run produces a cache hit with no state change. -/
theorem C6_witness :
    bplib_store_file_retrieve 1 ⟨WaitRes.ok⟩ c4_u3.fs c4_u3.sys =
      ⟨Status.success, c4_u3.fs, c4_u3.sys, [LockEvent.lock, LockEvent.unlock],
        some ⟨⟨0, 1, 1⟩, [7]⟩⟩ :=
  C6_cache_hit_no_io 1 ⟨WaitRes.ok⟩ c4_u3.fs c4_u3.sys ⟨⟨0, 1, 1⟩, [7]⟩ (by decide) (by decide)

/-- The cache-eviction prologue of relinquish touches only the data cache. -/
theorem relinquish_clear_cache_fields (fs : FileStore) (data_id : Nat) :
    (relinquish_clear_cache fs data_id).relinquish_table = fs.relinquish_table ∧
    (relinquish_clear_cache fs data_id).data_count = fs.data_count ∧
    (relinquish_clear_cache fs data_id).relinquish_data_id = fs.relinquish_data_id := by
  unfold relinquish_clear_cache
  simp only []
  split
  · split <;> exact ⟨rfl, rfl, rfl⟩
  · exact ⟨rfl, rfl, rfl⟩

/-- Projection equation for the relinquish lock wrapper. -/
theorem relinquish_status_eq (sid : Nat) (env : RelinquishEnv) (fs : FileStore) (sys : FileSys) :
    (bplib_store_file_relinquish sid env fs sys).status =
      (relinquish_locked sid env fs sys).status :=
  withLock_status _

/-- The relinquish result's file system is the one computed under the lock. -/
theorem relinquish_sys_eq (sid : Nat) (env : RelinquishEnv) (fs : FileStore) (sys : FileSys) :
    (bplib_store_file_relinquish sid env fs sys).sys =
      (relinquish_locked sid env fs sys).sys :=
  withLock_sys _

/-- The relinquish result's handle state is the one computed under the
lock. -/
theorem relinquish_fs_eq (sid : Nat) (env : RelinquishEnv) (fs : FileStore) (sys : FileSys) :
    (bplib_store_file_relinquish sid env fs sys).fs =
      (relinquish_locked sid env fs sys).fs :=
  withLock_fs _

/-- When the sid's bucket equals the current table's bucket, the
bucket-transition stage is a no-op. -/
theorem relinquish_swap_same (sid : Nat) (env : RelinquishEnv) (fs : FileStore) (sys : FileSys)
    (fid : Nat) : relinquish_swap sid env fs sys fid fid = Except.ok (fs, sys) := by
  unfold relinquish_swap
  rw [if_pos rfl]

/-- In the same-bucket case relinquish reduces to the marking stage applied
after the cache eviction. -/
theorem relinquish_locked_same_bucket (sid : Nat) (env : RelinquishEnv) (fs : FileStore)
    (sys : FileSys)
    (hb : GET_FILEID (GET_DATAID sid) = GET_FILEID (GET_DATAID fs.relinquish_data_id)) :
    relinquish_locked sid env fs sys =
      relinquish_mark (relinquish_clear_cache fs (GET_DATAID sid)) sys
        (GET_FILEID (GET_DATAID sid)) (GET_DATAOFFSET (GET_DATAID sid)) := by
  unfold relinquish_locked
  simp only []
  rw [← hb]
  rw [relinquish_swap_same]
  rfl

/-- Removing a missing `.tbl` file fails with `ENOENT`, which
`delete_tbl_file` turns into status 0. -/
theorem delete_tbl_missing (sys : FileSys) (fid : Nat) (h : sys.tbl fid = none) :
    delete_tbl_file sys fid =
      (0, { sys with tbl := fun f => if f = fid then none else sys.tbl f }) := by
  unfold delete_tbl_file remove_file_errno
  rw [h]
  simp

/-- Removing an existing `.dat` file succeeds with status 0. -/
theorem delete_dat_present (sys : FileSys) (fid : Nat)
    (h : (sys.dat fid).isSome = true) :
    delete_dat_file sys fid =
      (0, { sys with dat := fun f => if f = fid then none else sys.dat f }) := by
  unfold delete_dat_file
  rw [if_pos h]

/-- Claim C7: a relinquish that brings the current bucket's `free_cnt` to
256 deletes the bucket's `.tbl` and `.dat` files; a missing `.tbl` (whose
`remove` fails with `errno == 2`, i.e. `ENOENT`) counts as successfully
deleted, so the call still returns Success when only the `.dat` deletion
succeeds. -/
theorem C7_full_bucket_deletes_files (sid : Nat) (env : RelinquishEnv) (fs : FileStore)
    (sys : FileSys)
    (hb : GET_FILEID (GET_DATAID sid) = GET_FILEID (GET_DATAID fs.relinquish_data_id))
    (hfree : fs.relinquish_table.freed.getD (GET_DATAOFFSET (GET_DATAID sid)) false = false)
    (hcnt : fs.relinquish_table.free_cnt = 255)
    (hdat : (sys.dat (GET_FILEID (GET_DATAID sid))).isSome = true)
    (htbl : sys.tbl (GET_FILEID (GET_DATAID sid)) = none) :
    (bplib_store_file_relinquish sid env fs sys).status = Status.success ∧
    (bplib_store_file_relinquish sid env fs sys).sys.dat (GET_FILEID (GET_DATAID sid)) = none ∧
    (bplib_store_file_relinquish sid env fs sys).sys.tbl (GET_FILEID (GET_DATAID sid)) = none ∧
    (delete_tbl_file sys (GET_FILEID (GET_DATAID sid))).1 = 0 ∧
    remove_file_errno false = (-1, 2) := by
  obtain ⟨hct, hcd, hci⟩ := relinquish_clear_cache_fields fs (GET_DATAID sid)
  have hts := delete_tbl_missing sys (GET_FILEID (GET_DATAID sid)) htbl
  have hts2 : (delete_tbl_file sys (GET_FILEID (GET_DATAID sid))).2 =
      { sys with tbl := fun f => if f = GET_FILEID (GET_DATAID sid) then none else sys.tbl f } := by
    rw [hts]
  have hdd := delete_dat_present ((delete_tbl_file sys (GET_FILEID (GET_DATAID sid))).2)
    (GET_FILEID (GET_DATAID sid)) (by rw [hts2]; exact hdat)
  have hmark : relinquish_mark (relinquish_clear_cache fs (GET_DATAID sid)) sys
      (GET_FILEID (GET_DATAID sid)) (GET_DATAOFFSET (GET_DATAID sid)) =
      ⟨Status.success,
        { relinquish_clear_cache fs (GET_DATAID sid) with
            relinquish_table :=
              ⟨fs.relinquish_table.freed.set (GET_DATAOFFSET (GET_DATAID sid)) true,
               fs.relinquish_table.free_cnt + 1⟩,
            data_count := (relinquish_clear_cache fs (GET_DATAID sid)).data_count - 1 },
        (delete_dat_file
          (delete_tbl_file sys (GET_FILEID (GET_DATAID sid))).2
          (GET_FILEID (GET_DATAID sid))).2,
        [], none⟩ := by
    unfold relinquish_mark
    rw [hct]
    rw [if_pos hfree]
    simp only []
    rw [hcnt]
    rw [if_pos (show (255 : Int) + 1 = (FILE_DATA_COUNT : Int) by norm_num [FILE_DATA_COUNT])]
    rw [if_neg (by rw [hdd]; norm_num)]
  have hsys2 : (delete_dat_file
      (delete_tbl_file sys (GET_FILEID (GET_DATAID sid))).2
      (GET_FILEID (GET_DATAID sid))).2.dat (GET_FILEID (GET_DATAID sid)) = none := by
    rw [hdd]
    simp
  have hsys3 : (delete_dat_file
      (delete_tbl_file sys (GET_FILEID (GET_DATAID sid))).2
      (GET_FILEID (GET_DATAID sid))).2.tbl (GET_FILEID (GET_DATAID sid)) = none := by
    rw [hdd]
    show (delete_tbl_file sys (GET_FILEID (GET_DATAID sid))).2.tbl
      (GET_FILEID (GET_DATAID sid)) = none
    rw [hts2]
    simp
  refine ⟨?_, ?_, ?_, ?_, rfl⟩
  · rw [relinquish_status_eq, relinquish_locked_same_bucket sid env fs sys hb, hmark]
  · rw [relinquish_sys_eq, relinquish_locked_same_bucket sid env fs sys hb, hmark]
    exact hsys2
  · rw [relinquish_sys_eq, relinquish_locked_same_bucket sid env fs sys hb, hmark]
    exact hsys3
  · rw [hts]



/-- Witness for C7: relinquishing sid 6 (the last live slot of bucket 0)
deletes the bucket and returns Success even though the `.tbl` file never
existed. -/
theorem C7_witness :
    (bplib_store_file_relinquish 6 ⟨true, true⟩ c7_fs c7_sys).status = Status.success ∧
    (bplib_store_file_relinquish 6 ⟨true, true⟩ c7_fs c7_sys).sys.dat
      (GET_FILEID (GET_DATAID 6)) = none ∧
    (bplib_store_file_relinquish 6 ⟨true, true⟩ c7_fs c7_sys).sys.tbl
      (GET_FILEID (GET_DATAID 6)) = none :=
  let h := C7_full_bucket_deletes_files 6 ⟨true, true⟩ c7_fs c7_sys
    (by decide) (by decide) (by decide) (by decide) (by decide)
  ⟨h.1, h.2.1, h.2.2.1⟩

/-- Claim C10: relinquish is idempotent per sid within a bucket: when the
sid's slot is already marked freed in the current relinquish table, the call
returns Success and leaves `data_count`, the freed map and `free_cnt`
unchanged. -/
theorem C10_relinquish_idempotent (sid : Nat) (env : RelinquishEnv) (fs : FileStore)
    (sys : FileSys)
    (hb : GET_FILEID (GET_DATAID sid) = GET_FILEID (GET_DATAID fs.relinquish_data_id))
    (hfreed : fs.relinquish_table.freed.getD (GET_DATAOFFSET (GET_DATAID sid)) false = true) :
    (bplib_store_file_relinquish sid env fs sys).status = Status.success ∧
    (bplib_store_file_relinquish sid env fs sys).fs.data_count = fs.data_count ∧
    (bplib_store_file_relinquish sid env fs sys).fs.relinquish_table = fs.relinquish_table := by
  obtain ⟨hct, hcd, hci⟩ := relinquish_clear_cache_fields fs (GET_DATAID sid)
  have hmark : relinquish_mark (relinquish_clear_cache fs (GET_DATAID sid)) sys
      (GET_FILEID (GET_DATAID sid)) (GET_DATAOFFSET (GET_DATAID sid)) =
      ⟨Status.success, relinquish_clear_cache fs (GET_DATAID sid), sys, [], none⟩ := by
    unfold relinquish_mark
    rw [hct]
    rw [if_neg (by rw [hfreed]; exact fun h => Bool.true_eq_false.mp h)]
  refine ⟨?_, ?_, ?_⟩
  · rw [relinquish_status_eq, relinquish_locked_same_bucket sid env fs sys hb, hmark]
  · rw [relinquish_fs_eq, relinquish_locked_same_bucket sid env fs sys hb, hmark]
    exact hcd
  · rw [relinquish_fs_eq, relinquish_locked_same_bucket sid env fs sys hb, hmark]
    exact hct


/-- Witness for C10: a second relinquish of sid 6 returns Success and
changes neither `data_count` nor the relinquish table. -/
theorem C10_witness :
    (bplib_store_file_relinquish 6 ⟨true, true⟩ c10_fs emptyFileSys).status = Status.success ∧
    (bplib_store_file_relinquish 6 ⟨true, true⟩ c10_fs emptyFileSys).fs.data_count =
      c10_fs.data_count ∧
    (bplib_store_file_relinquish 6 ⟨true, true⟩ c10_fs emptyFileSys).fs.relinquish_table =
      c10_fs.relinquish_table :=
  C10_relinquish_idempotent 6 ⟨true, true⟩ c10_fs emptyFileSys (by decide) (by decide)

end BPStore
